import Mathlib

/-
Shallow embedding of the hanzoai/agent cloud control plane
(CloudManager, EventBus, dedicated-host allocator, monitor passes,
AWS and K8s provisioners), with theorems settling the frozen claims.

Conventions:
* Go `time.Time` / `time.Duration` are modelled as `Int` (a fixed unit,
  e.g. nanoseconds); `*time.Time` as `Option Int`.
* Go `int` counters and cent amounts are modelled as `Int`.
* The float64 `interval.Hours()` used by cost accrual is modelled as an
  exact rational `ℚ`; every concrete input used in a theorem below is
  exactly representable in float64, where the float computation agrees
  with the rational one.
* Fallible backend calls (EC2 RunInstances, billing HTTP, SQL count)
  are passed in as explicit `Except` outcomes.
-/

namespace HanzoCloud

/-- Lifecycle states of a cloud instance (pkg/types InstanceState). -/
inductive InstanceState
| requested
| provisioning
| running
| stopped
| terminated
| failed
deriving DecidableEq

/-- Platforms (pkg/types Platform). -/
inductive Platform
| linux
| macos
| windows
deriving DecidableEq

/-- CloudEvent as far as the claims observe it: the event type string and
the instance id.  `Publish` stamps id/timestamp, which no claim observes. -/
structure CloudEvent where
  eventType : String
  instanceID : String
deriving DecidableEq

/-- Event type constants (events.go). -/
def EventInstanceRequested : String := "instance.requested"

def EventInstanceProvisioning : String := "instance.provisioning"

def EventInstanceRunning : String := "instance.running"

def EventInstanceStopped : String := "instance.stopped"

def EventInstanceTerminated : String := "instance.terminated"

def EventInstanceFailed : String := "instance.failed"

def EventHostReleased : String := "host.released"

/-- EventBus state: the bounded ring buffer (subscriber channels carry the
same events and are not modelled). -/
structure EventBus where
  buffer : List CloudEvent
  bufferSize : Nat
deriving DecidableEq

/-- NewEventBus (eventbus.go): non-positive sizes fall back to 100. -/
def NewEventBus (n : Int) : EventBus :=
  if n ≤ 0 then { buffer := [], bufferSize := 100 }
  else { buffer := [], bufferSize := n.toNat }

/-- Publish (eventbus.go): when the buffer is full the oldest event is
evicted, then the new event is appended. -/
def EventBus.Publish (eb : EventBus) (e : CloudEvent) : EventBus :=
  { eb with
    buffer :=
      (if eb.bufferSize ≤ eb.buffer.length then eb.buffer.drop 1 else eb.buffer) ++ [e] }

/-- Publishing a whole list of events in order. -/
def EventBus.PublishAll (eb : EventBus) (es : List CloudEvent) : EventBus :=
  es.foldl EventBus.Publish eb

/-- Recent (eventbus.go): a limit that is non-positive or larger than the
buffer is clamped to the whole buffer; returns the last `limit` events. -/
def EventBus.Recent (eb : EventBus) (limit : Int) : List CloudEvent :=
  eb.buffer.drop (eb.buffer.length -
    (if limit ≤ 0 ∨ (eb.buffer.length : Int) < limit then eb.buffer.length else limit.toNat))

/-- Last `n` elements of a list. -/
def lastN (n : Nat) (l : List CloudEvent) : List CloudEvent :=
  l.drop (l.length - n)

theorem lastN_of_le {n : Nat} {l : List CloudEvent} (h : l.length ≤ n) :
    lastN n l = l := by
  unfold lastN
  rw [Nat.sub_eq_zero_of_le h, List.drop_zero]

theorem lastN_cons {n : Nat} {x : CloudEvent} {l : List CloudEvent}
    (h : n ≤ l.length) : lastN n (x :: l) = lastN n l := by
  unfold lastN
  rw [List.length_cons, Nat.succ_sub h, List.drop_succ_cons]

theorem publish_buffer_spec (c : Nat) (hc : 1 ≤ c) :
    ∀ (es b : List CloudEvent), b.length ≤ c →
      (EventBus.PublishAll ⟨b, c⟩ es).buffer = lastN c (b ++ es) := by
  intro es
  induction es with
  | nil =>
    intro b hb
    simp only [EventBus.PublishAll, List.foldl_nil, List.append_nil]
    exact (lastN_of_le hb).symm
  | cons e es ih =>
    intro b hb
    have hstep : EventBus.PublishAll ⟨b, c⟩ (e :: es)
        = EventBus.PublishAll (EventBus.Publish ⟨b, c⟩ e) es := rfl
    rw [hstep]
    by_cases hfull : c ≤ b.length
    · cases b with
      | nil =>
        exfalso
        simp at hfull
        omega
      | cons x t =>
        have hlen : t.length + 1 = c := by
          have h1 : t.length + 1 ≤ c := by simpa using hb
          have h2 : c ≤ t.length + 1 := by simpa using hfull
          omega
        have hpub : EventBus.Publish ⟨x :: t, c⟩ e = ⟨t ++ [e], c⟩ := by
          simp only [EventBus.Publish]
          rw [if_pos hfull]
          simp
        rw [hpub]
        have htlen : (t ++ [e]).length ≤ c := by
          simp only [List.length_append, List.length_cons, List.length_nil]
          omega
        rw [ih (t ++ [e]) htlen]
        have hassoc : (t ++ [e]) ++ es = t ++ (e :: es) := by simp
        rw [hassoc]
        have hle : c ≤ (t ++ (e :: es)).length := by
          simp only [List.length_append, List.length_cons]
          omega
        rw [← lastN_cons hle]
        rfl
    · have hpub : EventBus.Publish ⟨b, c⟩ e = ⟨b ++ [e], c⟩ := by
        simp only [EventBus.Publish]
        rw [if_neg hfull]
      rw [hpub]
      have hblen : (b ++ [e]).length ≤ c := by
        simp only [List.length_append, List.length_cons, List.length_nil]
        omega
      rw [ih (b ++ [e]) hblen]
      have hassoc : (b ++ [e]) ++ es = b ++ (e :: es) := by simp
      rw [hassoc]

/-- C7: the claim as written quantifies over every `N`, including `N`
larger than the bus capacity, where the oldest event has been evicted:
with capacity 1, after publishing two events, `Recent 2` is only the
last event. -/
theorem C7_counterexample :
    ¬ (((NewEventBus 1).PublishAll
          [⟨"a", ""⟩, ⟨"b", ""⟩]).Recent 2 = [⟨"a", ""⟩, ⟨"b", ""⟩]) := by
  decide

theorem lastN_length {n : Nat} {l : List CloudEvent} :
    (lastN n l).length = min n l.length := by
  unfold lastN
  rw [List.length_drop]
  omega

theorem lastN_lastN {m n : Nat} {l : List CloudEvent} (h : m ≤ n) :
    lastN m (lastN n l) = lastN m l := by
  unfold lastN
  rw [List.length_drop, List.drop_drop]
  congr 1
  omega

theorem lastN_append_right {l es : List CloudEvent} :
    lastN es.length (l ++ es) = es := by
  unfold lastN
  rw [List.length_append]
  have hlen : l.length + es.length - es.length = l.length := by omega
  rw [hlen, List.drop_left]

theorem Recent_spec (eb : EventBus) (limit : Int) (h1 : 0 < limit)
    (h2 : limit ≤ (eb.buffer.length : Int)) :
    eb.Recent limit = lastN limit.toNat eb.buffer := by
  unfold EventBus.Recent lastN
  rw [if_neg (by omega)]

theorem Recent_clamp (eb : EventBus) (limit : Int)
    (h : limit ≤ 0 ∨ (eb.buffer.length : Int) < limit) :
    eb.Recent limit = eb.buffer := by
  unfold EventBus.Recent
  rw [if_pos h]
  simp

/-- C7 (amended): for any bus whose capacity is at least one and whose
buffer is within capacity: (1) publishing any sequence of events leaves
the buffer holding exactly the last capacity-many events of
(old buffer ++ published) in chronological order, the oldest evicted when
the buffer is full; (2) Recent(limit) returns the last `limit` events of
the buffer whenever 0 < limit ≤ buffer length, and the whole buffer when
limit ≤ 0 or limit > buffer length; (3) hence for every N with
1 ≤ N ≤ capacity, calling Recent(N) immediately after publishing N events
— on any such bus state — returns exactly those N events in publish
order. -/
theorem C7_recent_ring_buffer (eb : EventBus) (es : List CloudEvent)
    (hc : 1 ≤ eb.bufferSize) (hwf : eb.buffer.length ≤ eb.bufferSize) :
    (eb.PublishAll es).buffer = lastN eb.bufferSize (eb.buffer ++ es) ∧
    (∀ limit : Int,
      (0 < limit → limit ≤ (eb.buffer.length : Int) →
        eb.Recent limit = lastN limit.toNat eb.buffer) ∧
      (limit ≤ 0 ∨ (eb.buffer.length : Int) < limit →
        eb.Recent limit = eb.buffer)) ∧
    (0 < es.length → es.length ≤ eb.bufferSize →
      (eb.PublishAll es).Recent (es.length : Int) = es) := by
  have hbuf : (eb.PublishAll es).buffer = lastN eb.bufferSize (eb.buffer ++ es) :=
    publish_buffer_spec eb.bufferSize hc es eb.buffer hwf
  refine ⟨hbuf, ?_, ?_⟩
  · intro limit
    exact ⟨fun h1 h2 => Recent_spec eb limit h1 h2,
           fun h => Recent_clamp eb limit h⟩
  · intro hpos hle
    have hlen2 : ((eb.PublishAll es).buffer).length
        = min eb.bufferSize (eb.buffer.length + es.length) := by
      rw [hbuf, lastN_length, List.length_append]
    have h1 : (0 : Int) < (es.length : Int) := by omega
    have h2 : ((es.length : Nat) : Int)
        ≤ (((eb.PublishAll es).buffer).length : Int) := by
      rw [hlen2]
      omega
    rw [Recent_spec (eb.PublishAll es) (es.length : Int) h1 h2]
    have htn : ((es.length : Nat) : Int).toNat = es.length := by omega
    rw [htn, hbuf, lastN_lastN hle, lastN_append_right]

/-- C7 witness: a bus of capacity 2 already holding one event; two more
events published, then recalled in publish order (the old event was
evicted). -/
theorem C7_recent_ring_buffer_witness :
    1 ≤ (⟨[⟨"x", ""⟩], 2⟩ : EventBus).bufferSize ∧
    ((⟨[⟨"x", ""⟩], 2⟩ : EventBus).PublishAll [⟨"a", ""⟩, ⟨"b", ""⟩]).Recent
        (([(⟨"a", ""⟩ : CloudEvent), ⟨"b", ""⟩].length : Nat) : Int)
      = [⟨"a", ""⟩, ⟨"b", ""⟩] :=
  ⟨by decide,
    (C7_recent_ring_buffer ⟨[⟨"x", ""⟩], 2⟩ [⟨"a", ""⟩, ⟨"b", ""⟩]
        (by decide) (by decide)).2.2 (by decide) (by decide)⟩

/-- Errors of the cloud package (errors.go), plus the wrapping
`ProvisionError` and the generic errors the provisioners build with
fmt.Errorf (represented by their message). -/
inductive CloudErr
| errCloudDisabled
| errInstanceNotFound
| errInvalidPlatform
| errMaxInstancesReached
| errNoAvailableHost
| errHostMinAllocation
| errBillingNotAuthorized (reason : String)
| errBillingServiceUnavailable
| provisionErr (instanceID : String) (platform : Platform) (provider : String) (inner : String)
| genericErr (msg : String)
deriving DecidableEq

/-- DedicatedHost record (pkg/types DedicatedHost), times as `Int`. -/
structure DedicatedHost where
  id : String
  hostID : String
  state : String
  currentInstanceID : String
  allocatedAt : Option Int
  releasedAt : Option Int
  minAllocation : Int
deriving DecidableEq

instance {ε α : Type} [DecidableEq ε] [DecidableEq α] :
    DecidableEq (Except ε α) := fun a b =>
  match a, b with
  | .error e1, .error e2 =>
      if h : e1 = e2 then .isTrue (by rw [h])
      else .isFalse (fun hc => h (Except.error.inj hc))
  | .error _, .ok _ => .isFalse (fun hc => Except.noConfusion hc)
  | .ok _, .error _ => .isFalse (fun hc => Except.noConfusion hc)
  | .ok a1, .ok a2 =>
      if h : a1 = a2 then .isTrue (by rw [h])
      else .isFalse (fun hc => h (Except.ok.inj hc))

/-- acquireDedicatedHost (aws/macos.go): an available host from the store
(modelled by `avail`) is marked allocated, assigned the instance, and
stamped `allocatedAt := now`; with no available host the allocator fails
with `ErrNoAvailableHost`.  The store update is modelled as succeeding. -/
def acquireDedicatedHost (now : Int) (instanceID : String)
    (avail : Option DedicatedHost) : Except CloudErr DedicatedHost :=
  match avail with
  | some host =>
      .ok { host with
        state := "allocated"
        currentInstanceID := instanceID
        allocatedAt := some now }
  | none => .error .errNoAvailableHost

/-- releaseDedicatedHost (aws/macos.go): refuses with
`ErrHostMinAllocation` while `now` is strictly before
`allocatedAt + minAllocation`; otherwise marks the host available, clears
the assignment and stamps `releasedAt := now`. -/
def releaseDedicatedHost (now : Int) (host : DedicatedHost) :
    Except CloudErr DedicatedHost :=
  match host.allocatedAt with
  | some a =>
      if now < a + host.minAllocation then .error .errHostMinAllocation
      else .ok { host with
        state := "available"
        currentInstanceID := ""
        releasedAt := some now }
  | none =>
      .ok { host with
        state := "available"
        currentInstanceID := ""
        releasedAt := some now }

/-- releaseIdleHosts (monitor.go), the per-host step: hosts in state
`allocated` with an empty current instance and a known `allocatedAt` are
transitioned to `available` once `now - allocatedAt > idleHostRelease`;
no minimum-allocation check is made and `currentInstanceID` is not
touched. -/
def releaseIdleHostStep (now idleHostRelease : Int) (host : DedicatedHost) :
    DedicatedHost :=
  if host.state ≠ "allocated" ∨ host.currentInstanceID ≠ "" then host
  else
    match host.allocatedAt with
    | none => host
    | some a =>
        if idleHostRelease < now - a then
          { host with state := "available", releasedAt := some now }
        else host

/-- Observable outcome of `launchMacOSInstance`: the state of the involved
dedicated-host record after the call (`none` when no host was acquired)
and the result. -/
structure MacLaunchResult where
  hostAfter : Option DedicatedHost
  result : Except CloudErr String
deriving DecidableEq

/-- launchMacOSInstance (aws/macos.go), the host-lifecycle slice: a host is
acquired at `tAcq`; the EC2 RunInstances call is abstracted as
`runResult` (its EC2 instance id on success).  On failure the release is
attempted at `tRel` and its error is discarded; on success the host is
re-stamped allocated with the instance assigned.  Userdata rendering is
modelled as succeeding. -/
def launchMacOSInstance (tAcq tRel : Int) (instanceID : String)
    (avail : Option DedicatedHost) (runResult : Except String String) :
    MacLaunchResult :=
  match acquireDedicatedHost tAcq instanceID avail with
  | .error e => { hostAfter := none, result := .error e }
  | .ok host =>
      match runResult with
      | .error e =>
          { hostAfter := some (match releaseDedicatedHost tRel host with
                               | .ok h2 => h2
                               | .error _ => host),
            result := .error (.provisionErr instanceID Platform.macos "aws" e) }
      | .ok ec2ID =>
          { hostAfter := some { host with
              currentInstanceID := instanceID
              state := "allocated" },
            result := .ok ec2ID }

/-- Host used in the C1 counterexample: available, never allocated, with a
24-hour minimum allocation (the default `min_host_allocation`, in hours). -/
def c1host : DedicatedHost :=
  { id := "dh-h-1", hostID := "h-1", state := "available",
    currentInstanceID := "", allocatedAt := none, releasedAt := none,
    minAllocation := 24 }

/-- C1: the claim fails on the code.  With the 24h minimum allocation, a
VM-launch failure right after acquisition attempts the release, the
release refuses (`ErrHostMinAllocation`), the error is discarded, and the
host stays `allocated` instead of returning to `available`.  The returned
error is the provisioning-failed wrap, as claimed. -/
theorem C1_counterexample :
    ((launchMacOSInstance 0 0 "i-1" (some c1host) (.error "ec2 down")).hostAfter.map
        DedicatedHost.state) ≠ some "available" ∧
    (launchMacOSInstance 0 0 "i-1" (some c1host) (.error "ec2 down")).result
      = .error (.provisionErr "i-1" Platform.macos "aws" "ec2 down") := by
  constructor
  · decide
  · decide

/-- C1 (amended): on VM-launch failure after host acquisition the error
returned is always the provisioning-failed error wrapping the backend
error, and a release is attempted; the host returns to `available` only
when `tAcq + minAllocation ≤ tRel` already holds, and otherwise remains
`allocated` with the instance still assigned (the min-allocation refusal
is discarded). -/
theorem C1_launch_failure (tAcq tRel : Int) (iid e : String)
    (h0 : DedicatedHost) :
    (launchMacOSInstance tAcq tRel iid (some h0) (.error e)).result
      = .error (.provisionErr iid Platform.macos "aws" e) ∧
    (tAcq + h0.minAllocation ≤ tRel →
      (launchMacOSInstance tAcq tRel iid (some h0) (.error e)).hostAfter
        = some { h0 with
            state := "available"
            currentInstanceID := ""
            allocatedAt := some tAcq
            releasedAt := some tRel }) ∧
    (tRel < tAcq + h0.minAllocation →
      (launchMacOSInstance tAcq tRel iid (some h0) (.error e)).hostAfter
        = some { h0 with
            state := "allocated"
            currentInstanceID := iid
            allocatedAt := some tAcq }) := by
  refine ⟨rfl, ?_, ?_⟩
  · intro hle
    simp only [launchMacOSInstance, acquireDedicatedHost, releaseDedicatedHost]
    rw [if_neg (by omega)]
  · intro hlt
    simp only [launchMacOSInstance, acquireDedicatedHost, releaseDedicatedHost]
    rw [if_pos (by omega)]

/-- C1 witness: a host with zero minimum allocation is indeed released
within the same request. -/
theorem C1_launch_failure_witness :
    (0 : Int) + ({ c1host with minAllocation := 0 } : DedicatedHost).minAllocation ≤ 0 ∧
    (launchMacOSInstance 0 0 "i-1" (some { c1host with minAllocation := 0 })
        (.error "ec2 down")).hostAfter
      = some { c1host with
          minAllocation := 0
          state := "available"
          currentInstanceID := ""
          allocatedAt := some 0
          releasedAt := some 0 } :=
  ⟨by decide,
    (C1_launch_failure 0 0 "i-1" "ec2 down" { c1host with minAllocation := 0 }).2.1
      (by decide)⟩

/-- Host used in the C2 counterexample: allocated at time 0 with a
10-unit minimum allocation, instance already gone. -/
def c2host : DedicatedHost :=
  { id := "dh-h-2", hostID := "h-2", state := "allocated",
    currentInstanceID := "", allocatedAt := some 0, releasedAt := none,
    minAllocation := 10 }

/-- C2: the claim fails on the code.  The monitor's idle-host-release pass
checks only the idle threshold, not the minimum allocation: with
`idle_host_release = 2 < min_allocation = 10`, at time 5 the host is
transitioned to `available` although only 5 < 10 units have elapsed since
allocation. -/
theorem C2_counterexample :
    (releaseIdleHostStep 5 2 c2host).state = "available" ∧
    (5 : Int) - 0 < c2host.minAllocation := by
  constructor
  · decide
  · decide

/-- C2 (amended): the allocator's release enforces the minimum allocation
unconditionally; the monitor's idle-host-release pass only guarantees
`now - allocatedAt > idleHostRelease`, so it preserves the invariant
exactly when the configuration keeps `minAllocation ≤ idleHostRelease`. -/
theorem C2_min_allocation (now idleRel a : Int) (h : DedicatedHost)
    (ha : h.allocatedAt = some a) :
    (∀ h2, releaseDedicatedHost now h = .ok h2 → a + h.minAllocation ≤ now) ∧
    (h.state = "allocated" →
      (releaseIdleHostStep now idleRel h).state = "available" →
      h.minAllocation ≤ idleRel →
      a + h.minAllocation ≤ now) := by
  constructor
  · intro h2 hrel
    simp only [releaseDedicatedHost, ha] at hrel
    by_cases hlt : now < a + h.minAllocation
    · rw [if_pos hlt] at hrel
      exact absurd hrel (by simp)
    · omega
  · intro hst hrel hmin
    by_cases hskip : h.state ≠ "allocated" ∨ h.currentInstanceID ≠ ""
    · simp only [releaseIdleHostStep, if_pos hskip] at hrel
      rw [hst] at hrel
      exact absurd hrel (by decide)
    · by_cases hidle : idleRel < now - a
      · omega
      · simp only [releaseIdleHostStep, if_neg hskip, ha, if_neg hidle] at hrel
        rw [hst] at hrel
        exact absurd hrel (by decide)

/-- C2 witness: the allocator releases a host 10 units after allocation
when the minimum allocation is 3 ≤ 10. -/
theorem C2_min_allocation_witness :
    (0 : Int) + ({ c2host with minAllocation := 3 } : DedicatedHost).minAllocation ≤ 10 :=
  (C2_min_allocation 10 4 0 { c2host with minAllocation := 3 } rfl).1
    { c2host with
      minAllocation := 3
      state := "available"
      currentInstanceID := ""
      releasedAt := some 10 }
    (by decide)

/-- CloudInstance (pkg/types), restricted to the fields the claims
observe. -/
structure CloudInstance where
  id : String
  platform : Platform
  state : InstanceState
  teamID : String
  hourlyRateCents : Int
  accruedCostCents : Int
  billingTier : String
deriving DecidableEq

/-- Go `int(f)` on a float64, modelled on exact rationals: truncation
toward zero. -/
def goIntOfRat (q : ℚ) : Int :=
  if q < 0 then -⌊-q⌋ else ⌊q⌋

/-- Per-instance body of the accrueUsageCosts loop (monitor.go):
instances with a non-positive hourly rate are skipped; otherwise the cost
for the interval is `int(float64(rate) * intervalHours)`, floored at
1 cent, and added to the accrued cost.  The store update and the usage
report are modelled as succeeding (a failing report does not revert the
accrual). -/
def accrueStep (intervalHours : ℚ) (inst : CloudInstance) : CloudInstance :=
  if inst.hourlyRateCents ≤ 0 then inst
  else
    { inst with
      accruedCostCents := inst.accruedCostCents +
        (if goIntOfRat ((inst.hourlyRateCents : ℚ) * intervalHours) < 1 then 1
         else goIntOfRat ((inst.hourlyRateCents : ℚ) * intervalHours)) }

/-- accrueUsageCosts (monitor.go): the store lists instances in state
`running` and the loop updates each of them; as a store transformation
this accrues on exactly the running instances. -/
def accrueUsageCosts (intervalHours : ℚ) (store : List CloudInstance) :
    List CloudInstance :=
  store.map (fun inst =>
    if inst.state = InstanceState.running then accrueStep intervalHours inst
    else inst)

/-- Instance used in the C3 counterexample: running at 3 cents/hour. -/
def c3inst : CloudInstance :=
  { id := "i-3", platform := Platform.linux, state := InstanceState.running,
    teamID := "t", hourlyRateCents := 3, accruedCostCents := 0,
    billingTier := "dev" }

/-- C3: the claim fails on the code.  The code truncates
(`int(float64(rate) * intervalHours)`), the claim says `round`: with a
rate of 3 cents/hour and a half-hour interval (both exactly representable
in float64, product 1.5), the code adds 1 cent, while
`max 1 (round (3 × 1/2)) = 2`. -/
theorem C3_counterexample :
    (accrueUsageCosts (1/2) [c3inst]).map CloudInstance.accruedCostCents
      ≠ [c3inst.accruedCostCents +
          max 1 (round ((c3inst.hourlyRateCents : ℚ) * (1/2)))] := by
  have hrate3 : c3inst.hourlyRateCents = 3 := rfl
  have hfloor : goIntOfRat ((c3inst.hourlyRateCents : ℚ) * (1/2)) = 1 := by
    rw [hrate3]
    unfold goIntOfRat
    rw [if_neg (by norm_num)]
    rw [Int.floor_eq_iff]
    norm_num
  have hround : round ((c3inst.hourlyRateCents : ℚ) * (1/2)) = 2 := by
    rw [hrate3, round_eq]
    rw [Int.floor_eq_iff]
    norm_num
  have hLHS : (accrueUsageCosts (1/2) [c3inst]).map CloudInstance.accruedCostCents
      = [1] := by
    simp only [accrueUsageCosts, List.map_cons, List.map_nil]
    rw [if_pos (show c3inst.state = InstanceState.running from rfl)]
    simp only [accrueStep]
    rw [if_neg (by decide), hfloor]
    rw [show c3inst.accruedCostCents = 0 from rfl]
    norm_num
  rw [hLHS, hround]
  rw [show c3inst.accruedCostCents = 0 from rfl]
  decide

/-- C3 (amended): each monitor cost-accrual pass adds, to every stored
instance in state `running` with positive hourly rate, exactly
`max 1 (trunc(hourly_rate_cents × interval_hours))` cents (truncation,
not rounding, with the 1-cent floor); all other instances accrue
nothing. -/
theorem C3_cost_accrual (intervalHours : ℚ) (store : List CloudInstance) :
    accrueUsageCosts intervalHours store = store.map (fun inst =>
      { inst with
        accruedCostCents := inst.accruedCostCents +
          (if inst.state = InstanceState.running ∧ 0 < inst.hourlyRateCents then
            max 1 (goIntOfRat ((inst.hourlyRateCents : ℚ) * intervalHours))
          else 0) }) := by
  unfold accrueUsageCosts
  apply List.map_congr_left
  intro inst _
  by_cases hrun : inst.state = InstanceState.running
  · rw [if_pos hrun]
    simp only [accrueStep]
    by_cases hrate : inst.hourlyRateCents ≤ 0
    · rw [if_pos hrate, if_neg (fun hc => absurd hc.2 (by omega))]
      simp
    · have hpos : inst.state = InstanceState.running ∧ 0 < inst.hourlyRateCents :=
        ⟨hrun, by omega⟩
      rw [if_neg hrate, if_pos hpos]
      have hg : (if goIntOfRat ((inst.hourlyRateCents : ℚ) * intervalHours) < 1
            then (1 : Int)
            else goIntOfRat ((inst.hourlyRateCents : ℚ) * intervalHours))
          = max 1 (goIntOfRat ((inst.hourlyRateCents : ℚ) * intervalHours)) := by
        split <;> omega
      rw [hg]
  · rw [if_neg hrun, if_neg (fun hc => hrun hc.1)]
    simp

/-- GetCloudInstance on the local storage (storage layer), by id. -/
def storeGetCloudInstance (s : List CloudInstance) (id : String) :
    Except CloudErr CloudInstance :=
  match s.find? (fun i => i.id = id) with
  | some i => .ok i
  | none => .error .errInstanceNotFound

/-- UpdateCloudInstance on the local storage: replaces the record with a
matching id. -/
def storeUpdateCloudInstance (s : List CloudInstance) (inst : CloudInstance) :
    List CloudInstance :=
  s.map (fun i => if i.id = inst.id then inst else i)

/-- CountCloudInstancesByTeam (storage layer): counts the team's
instances whose state is not in (terminated, failed). -/
def CountCloudInstancesByTeam (s : List CloudInstance) (teamID : String) : Nat :=
  (s.filter (fun i => i.teamID = teamID ∧ i.state ≠ InstanceState.terminated ∧
    i.state ≠ InstanceState.failed)).length

/-- Provisioner backend, abstracted: each operation's outcome as a
function of the instance id. -/
structure ProvOracle where
  startInstance : String → Except CloudErr Unit
  stopInstance : String → Except CloudErr Unit
  terminateInstance : String → Except CloudErr Unit
  getInstance : String → Except CloudErr CloudInstance

/-- BillingAuth (billing.go). -/
structure BillingAuth where
  authorized : Bool
  tier : String
  hourlyCents : Int
  reason : String
deriving DecidableEq

/-- ProvisionRequest, restricted to the fields CreateInstance reads. -/
structure ProvisionRequest where
  platform : Platform
  teamID : String
  botPackage : String
  instanceType : String
deriving DecidableEq

/-- CloudManager state (manager.go). -/
structure CloudManager where
  enabled : Bool
  maxInstancesPerTeam : Int
  store : Option (List CloudInstance)
  provisioners : Platform → Option ProvOracle
  eventBus : EventBus

/-- Go iterates the provisioner map in unspecified order; the fall-through
of GetInstance is modelled in a fixed platform order. -/
def provFallthrough (m : CloudManager) (id : String) :
    List Platform → Except CloudErr CloudInstance
  | [] => .error .errInstanceNotFound
  | p :: ps =>
      match m.provisioners p with
      | none => provFallthrough m id ps
      | some prov =>
          match prov.getInstance id with
          | .ok inst => .ok inst
          | .error _ => provFallthrough m id ps

def platformOrder : List Platform := [Platform.linux, Platform.macos, Platform.windows]

/-- CloudManager.GetInstance (manager.go): storage first, then the
provisioners. -/
def CloudManager.GetInstance (m : CloudManager) (id : String) :
    Except CloudErr CloudInstance :=
  if m.enabled then
    match m.store with
    | some s =>
        match storeGetCloudInstance s id with
        | .ok inst => .ok inst
        | .error _ => provFallthrough m id platformOrder
    | none => provFallthrough m id platformOrder
  else .error .errCloudDisabled

/-- CloudManager.resolveInstance (manager.go). -/
def CloudManager.resolveInstance (m : CloudManager) (id : String) :
    Except CloudErr (CloudInstance × ProvOracle) :=
  if m.enabled then
    match m.GetInstance id with
    | .error e => .error e
    | .ok inst =>
        match m.provisioners inst.platform with
        | none => .error .errInvalidPlatform
        | some prov => .ok (inst, prov)
  else .error .errCloudDisabled

/-- CloudManager.StartInstance (manager.go): resolve, delegate, and on
success write state `running` to the store (update errors discarded).
No event is published. -/
def CloudManager.StartInstance (m : CloudManager) (id : String) :
    CloudManager × Except CloudErr Unit :=
  match m.resolveInstance id with
  | .error e => (m, .error e)
  | .ok (inst, prov) =>
      match prov.startInstance id with
      | .error e => (m, .error e)
      | .ok _ =>
          (match m.store with
           | some s =>
               { m with store := some (storeUpdateCloudInstance s
                   { inst with state := InstanceState.running }) }
           | none => m,
           .ok ())

/-- CloudManager.StopInstance (manager.go): resolve, delegate, on success
write state `stopped` to the store and publish `instance.stopped`. -/
def CloudManager.StopInstance (m : CloudManager) (id : String) :
    CloudManager × Except CloudErr Unit :=
  match m.resolveInstance id with
  | .error e => (m, .error e)
  | .ok (inst, prov) =>
      match prov.stopInstance id with
      | .error e => (m, .error e)
      | .ok _ =>
          let m2 := match m.store with
            | some s =>
                { m with store := some (storeUpdateCloudInstance s
                    { inst with state := InstanceState.stopped }) }
            | none => m
          ({ m2 with eventBus := m2.eventBus.Publish ⟨EventInstanceStopped, id⟩ },
           .ok ())

/-- CloudManager.TerminateInstance (manager.go): resolve, delegate, on
success write state `terminated` to the store and publish
`instance.terminated`. -/
def CloudManager.TerminateInstance (m : CloudManager) (id : String) :
    CloudManager × Except CloudErr Unit :=
  match m.resolveInstance id with
  | .error e => (m, .error e)
  | .ok (inst, prov) =>
      match prov.terminateInstance id with
      | .error e => (m, .error e)
      | .ok _ =>
          let m2 := match m.store with
            | some s =>
                { m with store := some (storeUpdateCloudInstance s
                    { inst with state := InstanceState.terminated }) }
            | none => m
          ({ m2 with eventBus := m2.eventBus.Publish ⟨EventInstanceTerminated, id⟩ },
           .ok ())

/-- The team-quota gate of CreateInstance (manager.go): trips only when
the request has a team, a store is present, the count query succeeded and
the count reached the cap; a count error never trips it. -/
def quotaGateTrips (m : CloudManager) (teamID : String)
    (countOutcome : Except String Nat) : Bool :=
  decide (teamID ≠ "") && m.store.isSome &&
    (match countOutcome with
     | .ok c => decide (m.maxInstancesPerTeam ≤ (c : Int))
     | .error _ => false)

/-- Observable effects of one CreateInstance call. -/
structure CreateEffects where
  result : Except CloudErr CloudInstance
  billingCalled : Bool
  backendCalled : Bool
  storeWrites : Nat
  events : List CloudEvent

/-- CloudManager.CreateInstance (manager.go), with the store count query,
the billing authorization and the provisioner call abstracted as
outcomes.  Mirrors the Go order: enabled check, team quota gate, billing
authorization (unavailability and denial both abort before dispatch),
provisioner lookup, `instance.requested` event, backend call, billing
metadata stamping, store persist (errors logged only), and the
`instance.provisioning` event. -/
def CloudManager.CreateInstance (m : CloudManager) (req : ProvisionRequest)
    (countOutcome : Except String Nat) (authOutcome : Except String BillingAuth)
    (provOutcome : Except CloudErr CloudInstance) : CreateEffects :=
  if m.enabled then
    if quotaGateTrips m req.teamID countOutcome then
      { result := .error .errMaxInstancesReached, billingCalled := false,
        backendCalled := false, storeWrites := 0, events := [] }
    else
      match authOutcome with
      | .error _ =>
          { result := .error .errBillingServiceUnavailable, billingCalled := true,
            backendCalled := false, storeWrites := 0, events := [] }
      | .ok auth =>
          if auth.authorized then
            match m.provisioners req.platform with
            | none =>
                { result := .error .errInvalidPlatform, billingCalled := true,
                  backendCalled := false, storeWrites := 0, events := [] }
            | some _ =>
                match provOutcome with
                | .error e =>
                    { result := .error e, billingCalled := true,
                      backendCalled := true, storeWrites := 0,
                      events := [⟨EventInstanceRequested, ""⟩] }
                | .ok inst =>
                    { result := .ok { inst with
                        hourlyRateCents := auth.hourlyCents
                        billingTier := auth.tier },
                      billingCalled := true, backendCalled := true,
                      storeWrites := if m.store.isSome then 1 else 0,
                      events := [⟨EventInstanceRequested, ""⟩,
                        ⟨EventInstanceProvisioning, inst.id⟩] }
          else
            { result := .error (.errBillingNotAuthorized auth.reason),
              billingCalled := true, backendCalled := false, storeWrites := 0,
              events := [] }
  else
    { result := .error .errCloudDisabled, billingCalled := false,
      backendCalled := false, storeWrites := 0, events := [] }

/-- Instance used in the C4 and create-path witnesses: stopped, team t. -/
def c4inst : CloudInstance :=
  { id := "i-4", platform := Platform.linux, state := InstanceState.stopped,
    teamID := "t", hourlyRateCents := 0, accruedCostCents := 0,
    billingTier := "" }

/-- Provisioner whose mutating operations all succeed. -/
def c4prov : ProvOracle :=
  { startInstance := fun _ => .ok (), stopInstance := fun _ => .ok (),
    terminateInstance := fun _ => .ok (),
    getInstance := fun _ => .error .errInstanceNotFound }

/-- Manager used in the C4/C5/C10 witnesses. -/
def c4mgr : CloudManager :=
  { enabled := true, maxInstancesPerTeam := 10, store := some [c4inst],
    provisioners := fun p =>
      match p with
      | Platform.linux => some c4prov
      | _ => none,
    eventBus := NewEventBus 200 }

/-- C4: the claim fails on the code for Start.  On a successful delegated
start the store is updated but no lifecycle event is published: the
event bus is unchanged. -/
theorem C4_counterexample :
    (c4mgr.StartInstance "i-4").2 = .ok () ∧
    (c4mgr.StartInstance "i-4").1.eventBus = c4mgr.eventBus := by
  constructor
  · rfl
  · rfl

/-- C4 (amended): on a resolvable instance with a present store, a
successful delegated Stop (resp. Terminate) writes state `stopped`
(resp. `terminated`) to the store and publishes `instance.stopped`
(resp. `instance.terminated`); a successful delegated Start writes state
`running` but publishes no event (the event bus of the resulting manager
is unchanged). -/
theorem C4_mutating_ops (m : CloudManager) (s : List CloudInstance)
    (id : String) (inst : CloudInstance) (prov : ProvOracle)
    (hres : m.resolveInstance id = .ok (inst, prov))
    (hstore : m.store = some s) :
    (prov.startInstance id = .ok () →
      m.StartInstance id
        = ({ m with store := some (storeUpdateCloudInstance s
              { inst with state := InstanceState.running }) }, .ok ())) ∧
    (prov.stopInstance id = .ok () →
      m.StopInstance id
        = ({ m with
              store := some (storeUpdateCloudInstance s
                { inst with state := InstanceState.stopped })
              eventBus := m.eventBus.Publish ⟨EventInstanceStopped, id⟩ },
           .ok ())) ∧
    (prov.terminateInstance id = .ok () →
      m.TerminateInstance id
        = ({ m with
              store := some (storeUpdateCloudInstance s
                { inst with state := InstanceState.terminated })
              eventBus := m.eventBus.Publish ⟨EventInstanceTerminated, id⟩ },
           .ok ())) := by
  refine ⟨?_, ?_, ?_⟩
  · intro hop
    simp only [CloudManager.StartInstance, hres, hop, hstore]
  · intro hop
    simp only [CloudManager.StopInstance, hres, hop, hstore]
  · intro hop
    simp only [CloudManager.TerminateInstance, hres, hop, hstore]

/-- C4 witness: Stop on the concrete manager updates the store and
publishes `instance.stopped`. -/
theorem C4_mutating_ops_witness :
    c4prov.stopInstance "i-4" = .ok () ∧
    c4mgr.StopInstance "i-4"
      = ({ c4mgr with
            store := some (storeUpdateCloudInstance [c4inst]
              { c4inst with state := InstanceState.stopped })
            eventBus := c4mgr.eventBus.Publish ⟨EventInstanceStopped, "i-4"⟩ },
         .ok ()) :=
  ⟨rfl, (C4_mutating_ops c4mgr [c4inst] "i-4" c4inst c4prov rfl rfl).2.1 rfl⟩

/-- C5: with billing enabled and the authorization call failing, Create
returns `billing-service-unavailable`, makes no backend call, and writes
nothing to the store. -/
theorem C5_billing_unavailable (m : CloudManager) (req : ProvisionRequest)
    (countOutcome : Except String Nat) (e : String)
    (provOutcome : Except CloudErr CloudInstance)
    (hen : m.enabled = true)
    (hq : quotaGateTrips m req.teamID countOutcome = false) :
    (m.CreateInstance req countOutcome (.error e) provOutcome).result
        = .error .errBillingServiceUnavailable ∧
    (m.CreateInstance req countOutcome (.error e) provOutcome).backendCalled
        = false ∧
    (m.CreateInstance req countOutcome (.error e) provOutcome).storeWrites
        = 0 := by
  simp [CloudManager.CreateInstance, hen, hq]

/-- C5 witness. -/
theorem C5_billing_unavailable_witness :
    c4mgr.enabled = true ∧
    quotaGateTrips c4mgr "" (.ok 0) = false ∧
    (c4mgr.CreateInstance ⟨Platform.linux, "", "bot", ""⟩ (.ok 0)
        (.error "conn refused") (.ok c4inst)).result
      = .error .errBillingServiceUnavailable :=
  ⟨rfl, by decide,
    (C5_billing_unavailable c4mgr ⟨Platform.linux, "", "bot", ""⟩ (.ok 0)
      "conn refused" (.ok c4inst) rfl (by decide)).1⟩

/-- C6: with a non-empty team at or over the cap (counting the team's
instances excluding terminated and failed), Create returns
`max-instances-reached` and billing is never called. -/
theorem C6_team_quota (m : CloudManager) (req : ProvisionRequest)
    (s : List CloudInstance) (authOutcome : Except String BillingAuth)
    (provOutcome : Except CloudErr CloudInstance)
    (hen : m.enabled = true)
    (hteam : req.teamID ≠ "")
    (hstore : m.store = some s)
    (hmax : m.maxInstancesPerTeam ≤ (CountCloudInstancesByTeam s req.teamID : Int)) :
    (m.CreateInstance req (.ok (CountCloudInstancesByTeam s req.teamID))
        authOutcome provOutcome).result = .error .errMaxInstancesReached ∧
    (m.CreateInstance req (.ok (CountCloudInstancesByTeam s req.teamID))
        authOutcome provOutcome).billingCalled = false := by
  have hq : quotaGateTrips m req.teamID
      (.ok (CountCloudInstancesByTeam s req.teamID)) = true := by
    unfold quotaGateTrips
    rw [hstore]
    simp [hteam, hmax]
  simp [CloudManager.CreateInstance, hen, hq]

/-- Manager for the C6 witness: cap of one, one active instance stored. -/
def c6mgr : CloudManager := { c4mgr with maxInstancesPerTeam := 1 }

/-- C6 witness: the second create for team t is rejected before billing. -/
theorem C6_team_quota_witness :
    c6mgr.enabled = true ∧
    (1 : Int) ≤ (CountCloudInstancesByTeam [c4inst] "t" : Int) ∧
    (c6mgr.CreateInstance ⟨Platform.linux, "t", "bot", ""⟩
        (.ok (CountCloudInstancesByTeam [c4inst] "t"))
        (.ok ⟨true, "dev", 1, ""⟩) (.ok c4inst)).billingCalled = false :=
  ⟨rfl, by decide,
    (C6_team_quota c6mgr ⟨Platform.linux, "t", "bot", ""⟩ [c4inst]
      (.ok ⟨true, "dev", 1, ""⟩) (.ok c4inst) rfl (by decide) rfl (by decide)).2⟩

/-- C10: a failing count query never trips the team-quota gate (the error
is discarded and the create proceeds to billing), and the gate rejects
only on a successfully returned count at or over the cap. -/
theorem C10_quota_fails_open (m : CloudManager) (req : ProvisionRequest)
    (e : String) (authOutcome : Except String BillingAuth)
    (provOutcome : Except CloudErr CloudInstance)
    (hen : m.enabled = true) :
    quotaGateTrips m req.teamID (.error e) = false ∧
    (m.CreateInstance req (.error e) authOutcome provOutcome).billingCalled
        = true ∧
    (∀ co : Except String Nat, quotaGateTrips m req.teamID co = true →
      ∃ c, co = .ok c ∧ m.maxInstancesPerTeam ≤ (c : Int)) := by
  have hq : quotaGateTrips m req.teamID (.error e) = false := by
    unfold quotaGateTrips
    simp
  refine ⟨hq, ?_, ?_⟩
  · cases authOutcome with
    | error e2 => simp [CloudManager.CreateInstance, hen, hq]
    | ok auth =>
        by_cases hauth : auth.authorized
        · cases hprov : m.provisioners req.platform with
          | none => simp [CloudManager.CreateInstance, hen, hq, hauth, hprov]
          | some prov =>
              cases provOutcome with
              | error e3 =>
                  simp [CloudManager.CreateInstance, hen, hq, hauth, hprov]
              | ok inst =>
                  simp [CloudManager.CreateInstance, hen, hq, hauth, hprov]
        · simp [CloudManager.CreateInstance, hen, hq, hauth]
  · intro co hco
    cases co with
    | error e2 =>
        exfalso
        unfold quotaGateTrips at hco
        simp at hco
    | ok c =>
        refine ⟨c, rfl, ?_⟩
        unfold quotaGateTrips at hco
        simp at hco
        exact hco.2

/-- C10 witness. -/
theorem C10_quota_fails_open_witness :
    c4mgr.enabled = true ∧
    (c4mgr.CreateInstance ⟨Platform.linux, "t", "bot", ""⟩ (.error "db down")
        (.ok ⟨true, "dev", 1, ""⟩) (.ok c4inst)).billingCalled = true :=
  ⟨rfl,
    (C10_quota_fails_open c4mgr ⟨Platform.linux, "t", "bot", ""⟩ "db down"
      (.ok ⟨true, "dev", 1, ""⟩) (.ok c4inst) rfl).2.1⟩

/-- K8s pod phases (corev1.PodPhase). -/
inductive PodPhase
| pending
| running
| succeeded
| failed
| unknown
deriving DecidableEq

/-- A pod, restricted to what the k8s provisioner reads: its name, its
`cloud-instance` label and its phase. -/
structure Pod where
  name : String
  instanceLabel : String
  phase : PodPhase
deriving DecidableEq

/-- The k8s API backend: the pods in the configured namespace. -/
structure K8sCluster where
  pods : List Pod
deriving DecidableEq

/-- podPhaseToState (k8s/provisioner.go). -/
def podPhaseToState : PodPhase → InstanceState
  | .pending => .provisioning
  | .running => .running
  | .succeeded => .terminated
  | .failed => .terminated
  | .unknown => .failed

/-- findPodByInstanceID (k8s/provisioner.go): first pod labelled with the
instance id, else `ErrInstanceNotFound`. -/
def findPodByInstanceID (c : K8sCluster) (id : String) : Except CloudErr Pod :=
  match c.pods.filter (fun p => p.instanceLabel = id) with
  | [] => .error .errInstanceNotFound
  | p :: _ => .ok p

/-- TerminateInstance (k8s/provisioner.go): find the pod and delete it
(the API delete is modelled as removing the pod by name). -/
def k8sTerminateInstance (c : K8sCluster) (id : String) :
    K8sCluster × Except CloudErr Unit :=
  match findPodByInstanceID c id with
  | .error e => (c, .error e)
  | .ok pod => (⟨c.pods.filter (fun p => p.name ≠ pod.name)⟩, .ok ())

/-- StopInstance (k8s/provisioner.go) literally delegates to
TerminateInstance. -/
def k8sStopInstance (c : K8sCluster) (id : String) :
    K8sCluster × Except CloudErr Unit :=
  k8sTerminateInstance c id

/-- StartInstance (k8s/provisioner.go) always fails with the
unsupported-operation error and touches nothing. -/
def k8sStartInstance (c : K8sCluster) (_id : String) :
    K8sCluster × Except CloudErr Unit :=
  (c, .error (.genericErr "start not supported for K8s pods; create a new instance instead"))

/-- C8: on every cluster state and instance id, the k8s StartInstance
fails with the unsupported-operation error without touching the backend,
and StopInstance is the same operation as TerminateInstance. -/
theorem C8_k8s_start_unsupported (c : K8sCluster) (id : String) :
    k8sStartInstance c id
      = (c, .error (.genericErr
          "start not supported for K8s pods; create a new instance instead")) ∧
    k8sStopInstance c id = k8sTerminateInstance c id :=
  ⟨rfl, rfl⟩

/-- EC2 provider-native instance states (the ones the code names). -/
inductive Ec2State
| pending
| running
| stopping
| stopped
| shuttingDown
| terminated
| otherState
deriving DecidableEq

/-- An EC2 instance as the AWS provisioner reads it: its EC2 id, its
`cloud-instance` tag and its provider-native state. -/
structure Ec2Instance where
  ec2ID : String
  cloudInstanceTag : String
  ec2State : Ec2State
deriving DecidableEq

/-- ec2StateToInstanceState (aws provisioner). -/
def ec2StateToInstanceState : Ec2State → InstanceState
  | .pending => .provisioning
  | .running => .running
  | .stopping => .stopped
  | .stopped => .stopped
  | .shuttingDown => .terminated
  | .terminated => .terminated
  | .otherState => .failed

/-- The instance-state-name filter values of describeInstanceByTag. -/
def describeStateFilter : List Ec2State :=
  [Ec2State.pending, Ec2State.running, Ec2State.stopping, Ec2State.stopped]

/-- The instances the DescribeInstances call returns: tag matches and
provider state is in the filter. -/
def describeMatches (backend : List Ec2Instance) (id : String) :
    List Ec2Instance :=
  backend.filter (fun i => i.cloudInstanceTag = id ∧ i.ec2State ∈ describeStateFilter)

/-- describeInstanceByTag (aws provisioner): first reservation instance,
else `ErrInstanceNotFound`. -/
def describeInstanceByTag (backend : List Ec2Instance) (id : String) :
    Except CloudErr Ec2Instance :=
  match describeMatches backend id with
  | [] => .error .errInstanceNotFound
  | i :: _ => .ok i

/-- The CloudInstance view GetInstance builds, restricted to the fields
the claim observes. -/
structure AwsInstanceView where
  id : String
  ec2ID : String
  state : InstanceState
deriving DecidableEq

/-- GetInstance (aws provisioner): describe by tag, then map the provider
state. -/
def awsGetInstance (backend : List Ec2Instance) (id : String) :
    Except CloudErr AwsInstanceView :=
  match describeInstanceByTag backend id with
  | .error e => .error e
  | .ok i => .ok { id := id, ec2ID := i.ec2ID,
                   state := ec2StateToInstanceState i.ec2State }

/-- C9: when every instance carrying the tag is shutting-down or
terminated, the AWS GetInstance returns `instance-not-found` (the
describe call filters to pending/running/stopping/stopped); consequently
GetInstance never returns a view in state `terminated`, even though the
state mapping sends shutting-down and terminated to `terminated`. -/
theorem C9_aws_get_instance_filter (backend : List Ec2Instance) (id : String) :
    ((∀ i ∈ backend, i.cloudInstanceTag = id →
        i.ec2State = Ec2State.shuttingDown ∨ i.ec2State = Ec2State.terminated) →
      awsGetInstance backend id = .error .errInstanceNotFound) ∧
    (∀ v, awsGetInstance backend id = .ok v → v.state ≠ InstanceState.terminated) ∧
    ec2StateToInstanceState Ec2State.shuttingDown = InstanceState.terminated ∧
    ec2StateToInstanceState Ec2State.terminated = InstanceState.terminated := by
  refine ⟨?_, ?_, rfl, rfl⟩
  · intro hall
    have hfil : describeMatches backend id = [] := by
      unfold describeMatches
      rw [List.filter_eq_nil_iff]
      intro i hi
      simp only [decide_eq_true_eq, not_and]
      intro htag
      rcases hall i hi htag with h | h <;> simp [h, describeStateFilter]
    unfold awsGetInstance describeInstanceByTag
    rw [hfil]
  · intro v hv
    unfold awsGetInstance describeInstanceByTag at hv
    cases hmat : describeMatches backend id with
    | nil =>
        rw [hmat] at hv
        exact absurd hv (by simp)
    | cons i rest =>
        rw [hmat] at hv
        simp only [Except.ok.injEq] at hv
        have hmem : i ∈ describeMatches backend id := by
          rw [hmat]
          exact List.mem_cons_self i rest
        have hprop : i.ec2State ∈ describeStateFilter := by
          unfold describeMatches at hmem
          have h2 := (List.mem_filter.mp hmem).2
          simp only [decide_eq_true_eq] at h2
          exact h2.2
        have hstates : ec2StateToInstanceState i.ec2State
            ≠ InstanceState.terminated := by
          simp only [describeStateFilter, List.mem_cons,
            List.not_mem_nil, or_false] at hprop
          rcases hprop with h | h | h | h <;> rw [h] <;> decide
        rw [← hv]
        exact hstates

/-- C9 witness: a backend holding only a terminated instance with the tag
yields `instance-not-found`. -/
theorem C9_aws_get_instance_filter_witness :
    awsGetInstance [⟨"e-1", "i-9", Ec2State.terminated⟩] "i-9"
      = .error .errInstanceNotFound :=
  (C9_aws_get_instance_filter [⟨"e-1", "i-9", Ec2State.terminated⟩] "i-9").1
    (by
      intro i hi htag
      rw [List.mem_singleton] at hi
      subst hi
      right
      rfl)

end HanzoCloud
